import Mathlib

/-!
Verification of the retrieval-and-ranking routine of the customer-support
training repository.  The routine lives (with small variations) in
`knowledge_service.py` (DirectKnowledgeService.search_knowledge_base),
`customer_support_agent.py` (CustomerSupportAgent.search_knowledge_base),
`mcp_server.py` (handle_search_knowledge_base) and
`training_phases/phase1c_vector_database.py` (VectorDatabase.search_similar).

The vector index (ChromaDB) is an external collaborator: its answer to
`query(query_texts=[q], n_results=k)` is modelled as a value of type
`Except String (List Candidate)` — `.error` models the index call raising,
`.ok cands` models a successful answer whose single batch entry carries,
for each candidate, the document text, the metadata (`category`,
`keywords` as a comma-joined string, `source`), the distance and the id.
Python floats are modelled as rationals, Python strings as Lean strings.
-/

unseal Rat.add Rat.sub Rat.mul Rat.inv List.merge List.mergeSort

deriving instance DecidableEq for Except

namespace KB

/-- Model of Python `str.lower()` (ASCII case folding, as in the corpus). -/
def lowerStr (s : String) : String := String.mk (s.toList.map Char.toLower)

/-- Helper for `pySplitWs`: accumulates the current (reversed) token. -/
def splitWsAux : List Char → List Char → List String
  | [], acc => if acc.isEmpty then [] else [String.mk acc.reverse]
  | c :: rest, acc =>
    if c.isWhitespace then
      if acc.isEmpty then splitWsAux rest []
      else String.mk acc.reverse :: splitWsAux rest []
    else splitWsAux rest (c :: acc)

/-- Model of Python `str.split()` with no argument: split on runs of
whitespace, producing no empty tokens. -/
def pySplitWs (s : String) : List String := splitWsAux s.toList []

/-- Helper for `pySplitComma`: accumulates the current (reversed) piece. -/
def splitCommaAux : List Char → List Char → List String
  | [], acc => [String.mk acc.reverse]
  | c :: rest, acc =>
    if c = ',' then String.mk acc.reverse :: splitCommaAux rest []
    else splitCommaAux rest (c :: acc)

/-- Model of Python `str.split(',')`: split at every comma, keeping empty
pieces (so the empty string splits to one empty piece). -/
def pySplitComma (s : String) : List String := splitCommaAux s.toList []

/-- Model of Python `str.strip()`: drop leading and trailing whitespace. -/
def pyStrip (s : String) : String :=
  String.mk (((s.toList.dropWhile Char.isWhitespace).reverse.dropWhile
    Char.isWhitespace).reverse)

/-- Decides whether `needle` occurs as a contiguous sublist of `hay`. -/
def strHasSub (needle : List Char) : List Char → Bool
  | [] => needle.isEmpty
  | c :: rest => needle.isPrefixOf (c :: rest) || strHasSub needle rest

/-- Model of the Python expression `a in b` on strings: substring test. -/
def pyIn (a b : String) : Bool := strHasSub a.toList b.toList

/-- Floor of a rational, computed on the numerator and the (positive)
denominator. -/
def ratFloor (q : ℚ) : ℤ := q.num.fdiv q.den

/-- Rounds a rational to the nearest integer, ties to even
(the rounding of Python `round`). -/
def roundHalfEven (q : ℚ) : ℤ :=
  let f : ℤ := ratFloor q
  let r : ℚ := q - f
  if r < 1/2 then f
  else if 1/2 < r then f + 1
  else if f % 2 = 0 then f else f + 1

/-- Model of Python `round(x, n)`: round to `n` decimal places,
ties to even. -/
def pyRound (n : ℕ) (x : ℚ) : ℚ :=
  (roundHalfEven (x * 10 ^ n) : ℚ) / 10 ^ n

/-- One candidate of the batch answer of the vector index's `query` call:
document text, metadata fields (`category`, comma-joined `keywords`,
`source`), distance and id, exactly the fields the search routines read. -/
structure Candidate where
  id : String
  document : String
  category : String
  keywords : String
  source : String
  distance : ℚ
deriving DecidableEq, Repr

/-- Result record built by `DirectKnowledgeService.search_knowledge_base`
(knowledge_service.py, lines 147-160); `handle_search_knowledge_base` in
mcp_server.py builds the identical record. -/
structure SearchResult where
  id : String
  content : String
  category : String
  keywords : List String
  source : String
  relevance_score : ℕ
  distance : ℚ
  similarity : ℚ
  matched_keywords : List String
  search_query : String
  retrieval_method : String
deriving DecidableEq, Repr

/-- The lower-cased whitespace tokens of the query:
`query_words = query.lower().split()`. -/
def queryWords (query : String) : List String := pySplitWs (lowerStr query)

/-- The keyword list recovered from the metadata:
`doc_keywords = metadata.get('keywords', '').lower().split(',')`. -/
def docKeywords (c : Candidate) : List String := pySplitComma (lowerStr c.keywords)

/-- Whether one query word matches the candidate's keywords:
`any(word in keyword.strip() for keyword in doc_keywords)`. -/
def wordMatchesKeywords (c : Candidate) (word : String) : Bool :=
  (docKeywords c).any (fun kw => pyIn word (pyStrip kw))

/-- Count of keyword matches: `keyword_matches = sum(1 for word in
query_words if any(word in keyword.strip() for keyword in doc_keywords))`. -/
def keywordMatches (query : String) (c : Candidate) : ℕ :=
  ((queryWords query).filter (wordMatchesKeywords c)).length

/-- Count of content matches: `content_matches = sum(1 for word in
query_words if word in doc_content)` with `doc_content = doc.lower()`. -/
def contentMatches (query : String) (c : Candidate) : ℕ :=
  ((queryWords query).filter (fun w => pyIn w (lowerStr c.document))).length

/-- Combined score: `total_matches = keyword_matches + content_matches`. -/
def totalMatches (query : String) (c : Candidate) : ℕ :=
  keywordMatches query c + contentMatches query c

/-- Inclusion filter of knowledge_service.py line 145:
`if total_matches > 0 or distance < 1.5`. -/
def keepCandidate (query : String) (c : Candidate) : Bool :=
  decide (0 < totalMatches query c) || decide (c.distance < 3/2)

/-- The list comprehension of knowledge_service.py lines 156-157:
`[word for word in query_words if any(word in keyword.strip() for keyword
in doc_keywords)]`. -/
def matchedKeywords (query : String) (c : Candidate) : List String :=
  (queryWords query).filter (wordMatchesKeywords c)

/-- The dict appended to `relevant_docs` in knowledge_service.py
lines 147-160, field by field. -/
def buildResult (query : String) (c : Candidate) : SearchResult :=
  { id := c.id
    content := c.document
    category := c.category
    keywords := pySplitComma c.keywords
    source := c.source
    relevance_score := totalMatches query c
    distance := c.distance
    similarity := pyRound 3 (1 - c.distance)
    matched_keywords := matchedKeywords query c
    search_query := query
    retrieval_method := "semantic_search" }

/-- The Python sort key comparison: `relevant_docs.sort(key=lambda x:
(-x['relevance_score'], x['distance']))` orders by the lexicographic order
on `(-relevance_score, distance)`. -/
def resLe (a b : SearchResult) : Bool :=
  decide (b.relevance_score < a.relevance_score) ||
    (a.relevance_score == b.relevance_score && decide (a.distance ≤ b.distance))

/-- Model of `DirectKnowledgeService.search_knowledge_base`
(knowledge_service.py lines 121-168).  The whole body runs inside
`try: ... except: return []`, so an index failure yields `[]`; on success
the candidates are scored, filtered, sorted by `(-relevance_score,
distance)` and truncated to `max_results`. -/
def searchKnowledgeBase (query : String) (max_results : ℕ)
    (idx : Except String (List Candidate)) : List SearchResult :=
  match idx with
  | .error _ => []
  | .ok cands =>
    let relevant_docs :=
      (cands.filter (keepCandidate query)).map (buildResult query)
    (relevant_docs.mergeSort resLe).take max_results

/-- Result record built by `CustomerSupportAgent.search_knowledge_base`
(customer_support_agent.py lines 150-155): only content, category,
relevance_score and distance. -/
structure AgentResult where
  content : String
  category : String
  relevance_score : ℕ
  distance : ℚ
deriving DecidableEq, Repr

/-- Sort comparison of customer_support_agent.py line 158, the same
`(-relevance_score, distance)` key. -/
def agentLe (a b : AgentResult) : Bool :=
  decide (b.relevance_score < a.relevance_score) ||
    (a.relevance_score == b.relevance_score && decide (a.distance ≤ b.distance))

/-- Record construction of customer_support_agent.py lines 150-155. -/
def agentBuildResult (query : String) (c : Candidate) : AgentResult :=
  { content := c.document
    category := c.category
    relevance_score := keywordMatches query c
    distance := c.distance }

/-- Inclusion filter of customer_support_agent.py line 149:
`if keyword_matches > 0 or distance < 0.5` (no content term, threshold
0.5). -/
def agentKeep (query : String) (c : Candidate) : Bool :=
  decide (0 < keywordMatches query c) || decide (c.distance < 1/2)

/-- Model of `CustomerSupportAgent.search_knowledge_base`
(customer_support_agent.py lines 124-161).  The body has no try/except:
a failing index call propagates, hence the `Except` result.  On success
the kept candidates are sorted and the code returns
`relevant_docs[:3] if len(relevant_docs) >= 3 else relevant_docs`. -/
def agentSearchKnowledgeBase (query : String) (n_results : ℕ)
    (idx : Except String (List Candidate)) : Except String (List AgentResult) :=
  match idx with
  | .error e => .error e
  | .ok cands =>
    let _ := n_results
    let relevant_docs :=
      ((cands.filter (agentKeep query)).map (agentBuildResult query)).mergeSort agentLe
    .ok (if 3 ≤ relevant_docs.length then relevant_docs.take 3 else relevant_docs)

/-- Reply of the MCP tool handler: either the serialized result list or
the serialized `{"error": ...}` object. -/
inductive MCPReply where
  | ok : List SearchResult → MCPReply
  | errObj : String → MCPReply
deriving DecidableEq, Repr

/-- Model of `handle_search_knowledge_base` (mcp_server.py lines 192-227):
the same scoring, filter (threshold 1.5), sort and truncation as
`DirectKnowledgeService.search_knowledge_base`, but on an index failure it
returns a serialized error object instead of an empty list. -/
def mcpHandleSearchKnowledgeBase (query : String) (max_results : ℕ)
    (idx : Except String (List Candidate)) : MCPReply :=
  match idx with
  | .error e => .errObj e
  | .ok cands =>
    let relevant_docs :=
      (cands.filter (keepCandidate query)).map (buildResult query)
    .ok ((relevant_docs.mergeSort resLe).take max_results)

/-- Result record of `VectorDatabase.search_similar`
(phase1c_vector_database.py lines 197-207): id, text, metadata, distance
and `similarity = round(1 - distance, 4)`; no filtering or re-sorting. -/
structure SimilarResult where
  id : String
  text : String
  meta_category : String
  meta_keywords : String
  distance : ℚ
  similarity : ℚ
deriving DecidableEq, Repr

/-- Model of `VectorDatabase.search_similar` (phase1c_vector_database.py
lines 160-224): formats each candidate of the index answer, and returns
`[]` when the index call raises (the body is wrapped in try/except). -/
def searchSimilar (idx : Except String (List Candidate)) : List SimilarResult :=
  match idx with
  | .error _ => []
  | .ok cands =>
    cands.map (fun c =>
      { id := c.id
        text := c.document
        meta_category := c.category
        meta_keywords := c.keywords
        distance := c.distance
        similarity := pyRound 4 (1 - c.distance) })

/-- An order of the customer database of knowledge_service.py
lines 104-114. -/
structure Order where
  id : String
  date : String
  product : String
  status : String
deriving DecidableEq, Repr

/-- A customer record of knowledge_service.py lines 100-117. -/
structure Customer where
  name : String
  tier : String
  orders : List Order
  support_tickets : ℕ
deriving DecidableEq, Repr

/-- A document stored in the collection at `setup_data` time
(knowledge_service.py lines 60-66, 91-96). -/
structure StoredDoc where
  id : String
  text : String
  category : String
  keywords : List String
  source : String
deriving DecidableEq, Repr

/-- The mutable state of a `DirectKnowledgeService` instance: the stored
document collection and the customer database. -/
structure ServiceState where
  knowledge_base : List StoredDoc
  customers : List (String × Customer)
deriving DecidableEq, Repr

/-- State-passing model of `DirectKnowledgeService.search_knowledge_base`:
`indexQuery` is the black-box vector index, reading the stored collection;
the method performs no assignment to `self` fields and no `add`/`delete`
call, so the state is threaded through unchanged. -/
def searchKnowledgeBaseST
    (indexQuery : List StoredDoc → String → ℕ → Except String (List Candidate))
    (s : ServiceState) (query : String) (max_results : ℕ) :
    List SearchResult × ServiceState :=
  (searchKnowledgeBase query max_results (indexQuery s.knowledge_base query max_results), s)

/-- State-passing model of `CustomerSupportAgent.search_knowledge_base`,
likewise free of writes to the document store and the customers mapping. -/
def agentSearchKnowledgeBaseST
    (indexQuery : List StoredDoc → String → ℕ → Except String (List Candidate))
    (s : ServiceState) (query : String) (n_results : ℕ) :
    Except String (List AgentResult) × ServiceState :=
  (agentSearchKnowledgeBase query n_results (indexQuery s.knowledge_base query n_results), s)

/-- Concrete candidate mirroring the returns-policy document of the
corpus (keywords of knowledge_service.py line 33), with an index distance
of 0.7. -/
def returnsCand : Candidate :=
  { id := "policy_returns"
    document := "All items may be sent back within 30 days with the receipt"
    category := "returns"
    keywords := "return,refund,exchange,30 days,receipt"
    source := "PDF: policy_returns.pdf"
    distance := 7/10 }

/-- Concrete candidate mirroring the shipping-policy document, far from
the sample queries both in keywords and in embedding distance. -/
def shippingCand : Candidate :=
  { id := "policy_shipping"
    document := "Standard and express packages move through central hubs"
    category := "shipping"
    keywords := "shipping,delivery,express,standard"
    source := "PDF: policy_shipping.pdf"
    distance := 2 }

/-- Concrete candidate very close in embedding distance but with no
keyword metadata, as a document outside the mapping of
knowledge_service.py lines 32-39 would be stored. -/
def nearCand : Candidate :=
  { id := "faq_general"
    document := "General frequently asked questions"
    category := "general"
    keywords := ""
    source := "PDF: faq_general.pdf"
    distance := 1/10 }

/-- Four candidates that all match the keyword of the query used in the
truncation counterexample, at increasing distances. -/
def truncCand1 : Candidate :=
  { id := "doc1", document := "first document", category := "returns"
    keywords := "return,refund", source := "PDF", distance := 0 }

/-- Second of the four matching candidates. -/
def truncCand2 : Candidate :=
  { id := "doc2", document := "second document", category := "returns"
    keywords := "return,refund", source := "PDF", distance := 1/10 }

/-- Third of the four matching candidates. -/
def truncCand3 : Candidate :=
  { id := "doc3", document := "third document", category := "returns"
    keywords := "return,refund", source := "PDF", distance := 1/5 }

/-- Fourth of the four matching candidates: it passes the inclusion
filter but is dropped by the final truncation to three results. -/
def truncCand4 : Candidate :=
  { id := "doc4", document := "fourth document", category := "returns"
    keywords := "return,refund", source := "PDF", distance := 3/10 }

/-- The stored returns-policy document of the sample corpus. -/
def returnsDoc : StoredDoc :=
  { id := "policy_returns"
    text := "All items may be sent back within 30 days with the receipt"
    category := "returns"
    keywords := ["return", "refund", "exchange", "30 days", "receipt"]
    source := "PDF: policy_returns.pdf" }

/-- The stored shipping-policy document of the sample corpus. -/
def shippingDoc : StoredDoc :=
  { id := "policy_shipping"
    text := "Standard and express packages move through central hubs"
    category := "shipping"
    keywords := ["shipping", "delivery", "express", "standard"]
    source := "PDF: policy_shipping.pdf" }

/-- A service state holding both sample documents. -/
def sampleState : ServiceState :=
  { knowledge_base := [returnsDoc, shippingDoc], customers := [] }

/-- A vector index over `sampleState` whose single nearest neighbour for
any query is the shipping document (its embedding happens to be nearer):
a legitimate behaviour of the black-box index, under which the matching
returns document never reaches the scoring loop. -/
def shippingFirstIndex :
    List StoredDoc → String → ℕ → Except String (List Candidate) :=
  fun _ _ _ => .ok [shippingCand]

/-- The record `search_similar` builds for `returnsCand`
(phase1c_vector_database.py lines 201-207). -/
def similarReturns : SimilarResult :=
  { id := "policy_returns"
    text := "All items may be sent back within 30 days with the receipt"
    meta_category := "returns"
    meta_keywords := "return,refund,exchange,30 days,receipt"
    distance := 7/10
    similarity := pyRound 4 (1 - 7/10) }

/-! Helper lemmas about the sort comparisons, membership in the search
output, and the whitespace tokenizer. -/

theorem resLe_iff (a b : SearchResult) : resLe a b = true ↔
    (b.relevance_score < a.relevance_score ∨
      (a.relevance_score = b.relevance_score ∧ a.distance ≤ b.distance)) := by
  simp [resLe]

theorem resLe_trans (a b c : SearchResult) (hab : resLe a b = true)
    (hbc : resLe b c = true) : resLe a c = true := by
  rw [resLe_iff] at hab hbc ⊢
  rcases hab with h | ⟨h, h'⟩ <;> rcases hbc with g | ⟨g, g'⟩
  · exact Or.inl (by omega)
  · exact Or.inl (by omega)
  · exact Or.inl (by omega)
  · exact Or.inr ⟨by omega, le_trans h' g'⟩

theorem resLe_total (a b : SearchResult) : resLe a b || resLe b a := by
  simp only [Bool.or_eq_true, resLe_iff]
  rcases Nat.lt_trichotomy b.relevance_score a.relevance_score with h | h | h
  · exact Or.inl (Or.inl h)
  · rcases le_total a.distance b.distance with hd | hd
    · exact Or.inl (Or.inr ⟨h.symm, hd⟩)
    · exact Or.inr (Or.inr ⟨h, hd⟩)
  · exact Or.inr (Or.inl h)

theorem agentLe_iff (a b : AgentResult) : agentLe a b = true ↔
    (b.relevance_score < a.relevance_score ∨
      (a.relevance_score = b.relevance_score ∧ a.distance ≤ b.distance)) := by
  simp [agentLe]

theorem agentLe_trans (a b c : AgentResult) (hab : agentLe a b = true)
    (hbc : agentLe b c = true) : agentLe a c = true := by
  rw [agentLe_iff] at hab hbc ⊢
  rcases hab with h | ⟨h, h'⟩ <;> rcases hbc with g | ⟨g, g'⟩
  · exact Or.inl (by omega)
  · exact Or.inl (by omega)
  · exact Or.inl (by omega)
  · exact Or.inr ⟨by omega, le_trans h' g'⟩

theorem agentLe_total (a b : AgentResult) : agentLe a b || agentLe b a := by
  simp only [Bool.or_eq_true, agentLe_iff]
  rcases Nat.lt_trichotomy b.relevance_score a.relevance_score with h | h | h
  · exact Or.inl (Or.inl h)
  · rcases le_total a.distance b.distance with hd | hd
    · exact Or.inl (Or.inr ⟨h.symm, hd⟩)
    · exact Or.inr (Or.inr ⟨h, hd⟩)
  · exact Or.inr (Or.inl h)

theorem mem_search_ok {q : String} {m : ℕ} {cands : List Candidate}
    {r : SearchResult} (hr : r ∈ searchKnowledgeBase q m (.ok cands)) :
    ∃ c ∈ cands, keepCandidate q c = true ∧ r = buildResult q c := by
  unfold searchKnowledgeBase at hr
  have h1 : r ∈ ((cands.filter (keepCandidate q)).map (buildResult q)).mergeSort resLe :=
    (List.take_sublist _ _).subset hr
  have h2 := (List.mergeSort_perm _ resLe).mem_iff.mp h1
  obtain ⟨c, hc, rfl⟩ := List.mem_map.mp h2
  exact ⟨c, (List.mem_filter.mp hc).1, (List.mem_filter.mp hc).2, rfl⟩

theorem keep_mem_search {q : String} {m : ℕ} {cands : List Candidate}
    {c : Candidate} (hlen : cands.length ≤ m) (hc : c ∈ cands)
    (hkeep : keepCandidate q c = true) :
    buildResult q c ∈ searchKnowledgeBase q m (.ok cands) := by
  show buildResult q c ∈
    (((cands.filter (keepCandidate q)).map (buildResult q)).mergeSort resLe).take m
  have hmem : buildResult q c ∈
      ((cands.filter (keepCandidate q)).map (buildResult q)).mergeSort resLe :=
    (List.mergeSort_perm _ resLe).mem_iff.mpr
      (List.mem_map.mpr ⟨c, List.mem_filter.mpr ⟨hc, hkeep⟩, rfl⟩)
  have hlen2 : (((cands.filter (keepCandidate q)).map (buildResult q)).mergeSort resLe).length ≤ m := by
    calc (((cands.filter (keepCandidate q)).map (buildResult q)).mergeSort resLe).length
        = ((cands.filter (keepCandidate q)).map (buildResult q)).length :=
          (List.mergeSort_perm _ resLe).length_eq
      _ = (cands.filter (keepCandidate q)).length := List.length_map _ _
      _ ≤ cands.length := List.length_filter_le _ _
      _ ≤ m := hlen
  rw [List.take_of_length_le hlen2]
  exact hmem

theorem keep_of_buildResult_eq {q : String} {c c' : Candidate}
    (h : buildResult q c' = buildResult q c) :
    keepCandidate q c = keepCandidate q c' := by
  have hrel : totalMatches q c' = totalMatches q c := congrArg SearchResult.relevance_score h
  have hdist : c'.distance = c.distance := congrArg SearchResult.distance h
  unfold keepCandidate
  rw [hrel, hdist]

theorem agentKeep_of_buildResult_eq {q : String} {c c' : Candidate}
    (h : agentBuildResult q c' = agentBuildResult q c) :
    agentKeep q c = agentKeep q c' := by
  have hrel : keywordMatches q c' = keywordMatches q c :=
    congrArg AgentResult.relevance_score h
  have hdist : c'.distance = c.distance := congrArg AgentResult.distance h
  unfold agentKeep
  rw [hrel, hdist]

theorem mem_agentSearch_ok {q : String} {n : ℕ} {cands : List Candidate}
    {l : List AgentResult} {r : AgentResult}
    (h : agentSearchKnowledgeBase q n (.ok cands) = .ok l) (hr : r ∈ l) :
    ∃ c ∈ cands, agentKeep q c = true ∧ r = agentBuildResult q c := by
  unfold agentSearchKnowledgeBase at h
  have hl := (Except.ok.injEq _ _).mp h
  have h1 : r ∈ ((cands.filter (agentKeep q)).map (agentBuildResult q)).mergeSort agentLe := by
    by_cases h3 : 3 ≤ (((cands.filter (agentKeep q)).map (agentBuildResult q)).mergeSort agentLe).length
    · rw [if_pos h3] at hl
      exact (List.take_sublist _ _).subset (hl ▸ hr)
    · rw [if_neg h3] at hl
      exact hl ▸ hr
  have h2 := (List.mergeSort_perm _ agentLe).mem_iff.mp h1
  obtain ⟨c, hc, rfl⟩ := List.mem_map.mp h2
  exact ⟨c, (List.mem_filter.mp hc).1, (List.mem_filter.mp hc).2, rfl⟩

theorem search_ok_pairwise (q : String) (m : ℕ) (cands : List Candidate) :
    (searchKnowledgeBase q m (.ok cands)).Pairwise (fun a b => resLe a b = true) :=
  List.Pairwise.sublist (List.take_sublist _ _)
    (List.sorted_mergeSort resLe_trans resLe_total _)

theorem agentSearch_ok_pairwise {q : String} {n : ℕ} {cands : List Candidate}
    {l : List AgentResult} (h : agentSearchKnowledgeBase q n (.ok cands) = .ok l) :
    l.Pairwise (fun a b => agentLe a b = true) := by
  unfold agentSearchKnowledgeBase at h
  have hl := (Except.ok.injEq _ _).mp h
  have hsort := List.sorted_mergeSort agentLe_trans agentLe_total
    ((cands.filter (agentKeep q)).map (agentBuildResult q))
  by_cases h3 : 3 ≤ (((cands.filter (agentKeep q)).map (agentBuildResult q)).mergeSort agentLe).length
  · rw [if_pos h3] at hl
    exact hl ▸ List.Pairwise.sublist (List.take_sublist _ _) hsort
  · rw [if_neg h3] at hl
    exact hl ▸ hsort

theorem splitWsAux_no_ws : ∀ (l acc : List Char),
    (∀ ch ∈ acc, ch.isWhitespace = false) →
    ∀ s ∈ splitWsAux l acc, ∀ ch ∈ s.toList, ch.isWhitespace = false := by
  intro l
  induction l with
  | nil =>
    intro acc hacc s hs ch hch
    unfold splitWsAux at hs
    by_cases h : acc.isEmpty
    · simp [h] at hs
    · simp [h] at hs
      subst hs
      exact hacc ch (List.mem_reverse.mp hch)
  | cons c rest ih =>
    intro acc hacc s hs ch hch
    unfold splitWsAux at hs
    by_cases hw : c.isWhitespace = true
    · by_cases he : acc.isEmpty
      · rw [if_pos hw, if_pos he] at hs
        exact ih [] (by simp) s hs ch hch
      · rw [if_pos hw, if_neg he] at hs
        rcases List.mem_cons.mp hs with hs | hs
        · subst hs
          exact hacc ch (List.mem_reverse.mp hch)
        · exact ih [] (by simp) s hs ch hch
    · rw [if_neg hw] at hs
      refine ih (c :: acc) ?_ s hs ch hch
      intro ch' hch'
      rcases List.mem_cons.mp hch' with h | h
      · subst h
        exact Bool.not_eq_true _ ▸ hw
      · exact hacc ch' h

theorem mem_pySplitWs_no_ws {t : String} {w : String} (hw : w ∈ pySplitWs t) :
    ∀ ch ∈ w.toList, ch.isWhitespace = false :=
  splitWsAux_no_ws t.toList [] (by simp) w hw

theorem dropWhile_isWs_eq_self {l : List Char}
    (h : ∀ ch ∈ l, ch.isWhitespace = false) :
    l.dropWhile Char.isWhitespace = l := by
  cases l with
  | nil => rfl
  | cons c rest => simp [List.dropWhile_cons, h c (by simp)]

theorem pyStrip_eq_self {s : String}
    (h : ∀ ch ∈ s.toList, ch.isWhitespace = false) : pyStrip s = s := by
  unfold pyStrip
  rw [dropWhile_isWs_eq_self h,
    dropWhile_isWs_eq_self (fun ch hch => h ch (List.mem_reverse.mp hch)),
    List.reverse_reverse]
  cases s
  rfl

theorem isPrefixOf_self : ∀ l : List Char, l.isPrefixOf l = true := by
  intro l
  induction l with
  | nil => rfl
  | cons c rest ih => simp [List.isPrefixOf, ih]

theorem pyIn_self (s : String) : pyIn s s = true := by
  unfold pyIn
  cases h : s.toList with
  | nil => rfl
  | cons c rest =>
    unfold strHasSub
    rw [isPrefixOf_self]
    rfl

theorem keywordMatches_pos {q : String} {c : Candidate} {w : String}
    (hw : w ∈ queryWords q) (hkw : w ∈ docKeywords c) :
    0 < keywordMatches q c := by
  have hstrip : pyStrip w = w :=
    pyStrip_eq_self (mem_pySplitWs_no_ws hw)
  have hmatch : wordMatchesKeywords c w = true := by
    unfold wordMatchesKeywords
    exact List.any_eq_true.mpr ⟨w, hkw, by rw [hstrip]; exact pyIn_self w⟩
  exact List.length_pos_of_mem (List.mem_filter.mpr ⟨hw, hmatch⟩)

/-! Theorems settling the claims. -/

/-- Claim C1: for every query, every max_results and every index answer,
the list returned by search_knowledge_base is sorted by relevance_score
descending, ties broken by distance ascending: any two consecutive
results a, b satisfy a.relevance_score > b.relevance_score, or
a.relevance_score = b.relevance_score and a.distance ≤ b.distance; the
same holds for every successful return of the agent variant. -/
theorem C1_results_sorted (query : String) (max_results n_results : ℕ)
    (idx : Except String (List Candidate)) :
    (searchKnowledgeBase query max_results idx).Chain'
      (fun a b => b.relevance_score < a.relevance_score ∨
        (a.relevance_score = b.relevance_score ∧ a.distance ≤ b.distance)) ∧
    (∀ l, agentSearchKnowledgeBase query n_results idx = .ok l →
      l.Chain' (fun a b => b.relevance_score < a.relevance_score ∨
        (a.relevance_score = b.relevance_score ∧ a.distance ≤ b.distance))) := by
  constructor
  · cases idx with
    | error e => simp [searchKnowledgeBase]
    | ok cands =>
      exact ((search_ok_pairwise query max_results cands).imp
        (fun hab => (resLe_iff _ _).mp hab)).chain'
  · intro l hl
    cases idx with
    | error e => simp [agentSearchKnowledgeBase] at hl
    | ok cands =>
      exact ((agentSearch_ok_pairwise hl).imp
        (fun hab => (agentLe_iff _ _).mp hab)).chain'

/-- Claim C1, instantiated: the sortedness holds on a concrete run of
both search variants. -/
theorem C1_results_sorted_witness :
    (searchKnowledgeBase "return" 3 (.ok [returnsCand, shippingCand])).Chain'
      (fun a b => b.relevance_score < a.relevance_score ∨
        (a.relevance_score = b.relevance_score ∧ a.distance ≤ b.distance)) ∧
    ([agentBuildResult "return" returnsCand].Chain'
      (fun a b => b.relevance_score < a.relevance_score ∨
        (a.relevance_score = b.relevance_score ∧ a.distance ≤ b.distance))) :=
  ⟨(C1_results_sorted "return" 3 5 (.ok [returnsCand, shippingCand])).1,
   (C1_results_sorted "return" 3 5 (.ok [returnsCand, shippingCand])).2
     [agentBuildResult "return" returnsCand] (by decide)⟩

/-- Claim C3, counterexample: the claim says every variant of the search
operation swallows index failures and returns an empty sequence, but
`CustomerSupportAgent.search_knowledge_base` has no try/except around the
index call: on a failing index it propagates the error and returns no
sequence at all. -/
theorem C3_counterexample :
    agentSearchKnowledgeBase "How do I return this?" 5
        (.error "connection refused") = .error "connection refused" ∧
    agentSearchKnowledgeBase "How do I return this?" 5
        (.error "connection refused") ≠ .ok [] :=
  ⟨rfl, by decide⟩

/-- Claim C3, amended: on a failing index call the knowledge service and
the phase1c vector database return an empty sequence without raising, the
MCP server handler returns a serialized error object without raising, and
the customer_support_agent variant propagates the exception. -/
theorem C3_amended_failure_handling :
    (∀ (q : String) (m : ℕ) (e : String),
      searchKnowledgeBase q m (.error e) = []) ∧
    (∀ e : String, searchSimilar (.error e) = []) ∧
    (∀ (q : String) (m : ℕ) (e : String),
      mcpHandleSearchKnowledgeBase q m (.error e) = .errObj e) ∧
    (∀ (q : String) (n : ℕ) (e : String),
      agentSearchKnowledgeBase q n (.error e) = .error e) :=
  ⟨fun _ _ _ => rfl, fun _ => rfl, fun _ _ _ => rfl, fun _ _ _ => rfl⟩

/-- Claim C4: for every query, every max_results and every index answer
(hence every corpus size), the sequence returned by search_knowledge_base
has length at most max_results; likewise for every successful reply of
the MCP server handler. -/
theorem C4_length_bounded (query : String) (max_results : ℕ)
    (idx : Except String (List Candidate)) :
    (searchKnowledgeBase query max_results idx).length ≤ max_results ∧
    (∀ l, mcpHandleSearchKnowledgeBase query max_results idx = .ok l →
      l.length ≤ max_results) := by
  constructor
  · cases idx with
    | error e => simp [searchKnowledgeBase]
    | ok cands => exact List.length_take_le _ _
  · intro l hl
    cases idx with
    | error e => simp [mcpHandleSearchKnowledgeBase] at hl
    | ok cands =>
      unfold mcpHandleSearchKnowledgeBase at hl
      have h := (MCPReply.ok.injEq _ _).mp hl
      exact h ▸ List.length_take_le _ _

/-- Claim C4, instantiated: on a concrete run with two candidates and
max_results 1 both variants return at most one result. -/
theorem C4_length_bounded_witness :
    (searchKnowledgeBase "return" 1 (.ok [returnsCand, shippingCand])).length ≤ 1 ∧
    ([buildResult "return" returnsCand] : List SearchResult).length ≤ 1 :=
  ⟨(C4_length_bounded "return" 1 (.ok [returnsCand, shippingCand])).1,
   (C4_length_bounded "return" 1 (.ok [returnsCand, shippingCand])).2
     [buildResult "return" returnsCand] (by decide)⟩

/-- Claim C8: search_knowledge_base is read-only: it leaves the stored
document collection and the customers mapping unchanged, in both the
knowledge-service and the agent variant, for every index behaviour. -/
theorem C8_search_read_only
    (f : List StoredDoc → String → ℕ → Except String (List Candidate))
    (s : ServiceState) (query : String) (k : ℕ) :
    (searchKnowledgeBaseST f s query k).2 = s ∧
    (agentSearchKnowledgeBaseST f s query k).2 = s :=
  ⟨rfl, rfl⟩

/-- Claim C5: every result of search_knowledge_base carries
similarity = round(1 − distance, 3), and every result of the phase1c
search_similar carries similarity = round(1 − distance, 4). -/
theorem C5_similarity_rounding (query : String) (max_results : ℕ)
    (idx : Except String (List Candidate)) :
    (∀ r ∈ searchKnowledgeBase query max_results idx,
      r.similarity = pyRound 3 (1 - r.distance)) ∧
    (∀ r ∈ searchSimilar idx, r.similarity = pyRound 4 (1 - r.distance)) := by
  constructor
  · intro r hr
    cases idx with
    | error e => simp [searchKnowledgeBase] at hr
    | ok cands =>
      obtain ⟨c, _, _, rfl⟩ := mem_search_ok hr
      rfl
  · intro r hr
    cases idx with
    | error e => simp [searchSimilar] at hr
    | ok cands =>
      obtain ⟨c, _, rfl⟩ := List.mem_map.mp hr
      rfl

/-- Claim C5, instantiated on concrete results of both variants. -/
theorem C5_similarity_rounding_witness :
    (buildResult "return" returnsCand).similarity =
      pyRound 3 (1 - (buildResult "return" returnsCand).distance) ∧
    similarReturns.similarity = pyRound 4 (1 - similarReturns.distance) :=
  ⟨(C5_similarity_rounding "return" 3 (.ok [returnsCand])).1
      (buildResult "return" returnsCand) (by decide),
   (C5_similarity_rounding "return" 3 (.ok [returnsCand])).2
      similarReturns (by decide)⟩

/-- Claim C6: the relevance_score of a candidate is the count of
lower-cased whitespace tokens of the query appearing as a substring of
some keyword (recovered by splitting the comma-joined metadata string),
plus, in the enhanced variant, the count of query tokens appearing in the
lower-cased document text; the agent variant uses the keyword count
alone, and every result of search_knowledge_base is built this way from
a returned candidate. -/
theorem C6_relevance_score_counts (query : String) (c : Candidate)
    (max_results : ℕ) (cands : List Candidate) :
    (buildResult query c).relevance_score =
      ((queryWords query).countP
          (fun w => (docKeywords c).any (fun kw => pyIn w (pyStrip kw))) +
        (queryWords query).countP (fun w => pyIn w (lowerStr c.document))) ∧
    (agentBuildResult query c).relevance_score =
      (queryWords query).countP
        (fun w => (docKeywords c).any (fun kw => pyIn w (pyStrip kw))) ∧
    (∀ r ∈ searchKnowledgeBase query max_results (.ok cands),
      ∃ c' ∈ cands, r = buildResult query c') := by
  refine ⟨?_, ?_, ?_⟩
  · show totalMatches query c = _
    simp only [totalMatches, keywordMatches, contentMatches,
      List.countP_eq_length_filter]
    rfl
  · show keywordMatches query c = _
    simp only [keywordMatches, List.countP_eq_length_filter]
    rfl
  · intro r hr
    obtain ⟨c', hc', _, rfl⟩ := mem_search_ok hr
    exact ⟨c', hc', rfl⟩

/-- Claim C6, instantiated: the characterization applied to a concrete
run. -/
theorem C6_relevance_score_counts_witness :
    ∃ c' ∈ [returnsCand], buildResult "return" returnsCand = buildResult "return" c' :=
  (C6_relevance_score_counts "return" returnsCand 3 [returnsCand]).2.2
    (buildResult "return" returnsCand) (by decide)

/-- Claim C9: when the query has no whitespace tokens, every result of
the knowledge-service search has relevance_score 0, an empty
matched_keywords list and distance below 1.5, and every result of a
successful agent search has relevance_score 0 and distance below 0.5. -/
theorem C9_empty_query (query : String) (max_results n_results : ℕ)
    (idx : Except String (List Candidate))
    (hq : queryWords query = []) :
    (∀ r ∈ searchKnowledgeBase query max_results idx,
      r.relevance_score = 0 ∧ r.matched_keywords = [] ∧ r.distance < 3/2) ∧
    (∀ l, agentSearchKnowledgeBase query n_results idx = .ok l →
      ∀ r ∈ l, r.relevance_score = 0 ∧ r.distance < 1/2) := by
  have hkm : ∀ c : Candidate, keywordMatches query c = 0 := by
    intro c
    unfold keywordMatches
    rw [hq]
    rfl
  have hcm : ∀ c : Candidate, contentMatches query c = 0 := by
    intro c
    unfold contentMatches
    rw [hq]
    rfl
  have htm : ∀ c : Candidate, totalMatches query c = 0 := by
    intro c
    unfold totalMatches
    rw [hkm, hcm]
  constructor
  · intro r hr
    cases idx with
    | error e => simp [searchKnowledgeBase] at hr
    | ok cands =>
      obtain ⟨c, _, hkeep, rfl⟩ := mem_search_ok hr
      refine ⟨htm c, ?_, ?_⟩
      · show matchedKeywords query c = []
        unfold matchedKeywords
        rw [hq]
        rfl
      · unfold keepCandidate at hkeep
        rw [htm c] at hkeep
        simpa using hkeep
  · intro l hl r hr
    cases idx with
    | error e => simp [agentSearchKnowledgeBase] at hl
    | ok cands =>
      obtain ⟨c, _, hkeep, rfl⟩ := mem_agentSearch_ok hl hr
      refine ⟨hkm c, ?_⟩
      unfold agentKeep at hkeep
      rw [hkm c] at hkeep
      simpa using hkeep

/-- Claim C9, instantiated at the empty query on a close-by candidate. -/
theorem C9_empty_query_witness :
    (∀ r ∈ searchKnowledgeBase "" 3 (.ok [nearCand]),
      r.relevance_score = 0 ∧ r.matched_keywords = [] ∧ r.distance < 3/2) ∧
    (∀ l, agentSearchKnowledgeBase "" 5 (.ok [nearCand]) = .ok l →
      ∀ r ∈ l, r.relevance_score = 0 ∧ r.distance < 1/2) :=
  C9_empty_query "" 3 5 (.ok [nearCand]) (by decide)

/-- Claim C10: every element of a result's matched_keywords is a
lower-cased whitespace token of the query that is a substring of one of
the originating candidate's (stripped, lower-cased) keywords, and the
number of matched keywords never exceeds the relevance_score. -/
theorem C10_matched_keywords_sound (query : String) (max_results : ℕ)
    (cands : List Candidate) (r : SearchResult)
    (hr : r ∈ searchKnowledgeBase query max_results (.ok cands)) :
    ∃ c ∈ cands, r = buildResult query c ∧
      (∀ w ∈ r.matched_keywords, w ∈ queryWords query ∧
        (docKeywords c).any (fun kw => pyIn w (pyStrip kw)) = true) ∧
      r.matched_keywords.length ≤ r.relevance_score := by
  obtain ⟨c, hc, _, rfl⟩ := mem_search_ok hr
  refine ⟨c, hc, rfl, ?_, ?_⟩
  · intro w hw
    have hw' : w ∈ (queryWords query).filter (wordMatchesKeywords c) := hw
    have h := List.mem_filter.mp hw'
    exact ⟨h.1, h.2⟩
  · show (matchedKeywords query c).length ≤ totalMatches query c
    unfold matchedKeywords totalMatches keywordMatches
    exact Nat.le_add_right _ _

/-- Claim C10, instantiated on a concrete run. -/
theorem C10_matched_keywords_sound_witness :
    ∃ c ∈ [returnsCand], buildResult "return" returnsCand = buildResult "return" c ∧
      (∀ w ∈ (buildResult "return" returnsCand).matched_keywords,
        w ∈ queryWords "return" ∧
        (docKeywords c).any (fun kw => pyIn w (pyStrip kw)) = true) ∧
      (buildResult "return" returnsCand).matched_keywords.length ≤
        (buildResult "return" returnsCand).relevance_score :=
  C10_matched_keywords_sound "return" 3 [returnsCand]
    (buildResult "return" returnsCand) (by decide)

/-- Claim C2, counterexample: in the agent variant, a candidate passing
the inclusion filter (relevance_score > 0) can still be missing from the
returned list, because the function truncates the sorted list to three
entries: with four passing candidates the fourth is dropped, so the
claimed "kept if and only if" fails. -/
theorem C2_counterexample :
    agentKeep "return" truncCand4 = true ∧
    agentSearchKnowledgeBase "return" 5
        (.ok [truncCand1, truncCand2, truncCand3, truncCand4]) =
      .ok [agentBuildResult "return" truncCand1,
        agentBuildResult "return" truncCand2,
        agentBuildResult "return" truncCand3] ∧
    agentBuildResult "return" truncCand4 ∉
      [agentBuildResult "return" truncCand1,
        agentBuildResult "return" truncCand2,
        agentBuildResult "return" truncCand3] :=
  ⟨by decide, by decide, by decide⟩

/-- Claim C2, amended: a candidate failing both conditions
(relevance_score = 0 and distance not below the threshold) is always
excluded, in the knowledge-service variant and in the agent variant; and
in the knowledge-service variant, where the index is asked for at most
max_results candidates, a candidate is kept if and only if it passes the
filter.  In the agent variant a passing candidate can still be dropped by
the truncation to three results. -/
theorem C2_amended_inclusion_filter :
    (∀ (q : String) (m : ℕ) (cands : List Candidate) (c : Candidate),
      cands.length ≤ m → c ∈ cands →
      (buildResult q c ∈ searchKnowledgeBase q m (.ok cands) ↔
        keepCandidate q c = true)) ∧
    (∀ (q : String) (m : ℕ) (cands : List Candidate) (c : Candidate),
      keepCandidate q c = false →
      buildResult q c ∉ searchKnowledgeBase q m (.ok cands)) ∧
    (∀ (q : String) (n : ℕ) (cands : List Candidate) (l : List AgentResult)
      (c : Candidate),
      agentSearchKnowledgeBase q n (.ok cands) = .ok l →
      agentKeep q c = false → agentBuildResult q c ∉ l) := by
  refine ⟨?_, ?_, ?_⟩
  · intro q m cands c hlen hc
    constructor
    · intro hmem
      obtain ⟨c', _, hkeep', heq⟩ := mem_search_ok hmem
      rw [keep_of_buildResult_eq heq.symm]
      exact hkeep'
    · intro hkeep
      exact keep_mem_search hlen hc hkeep
  · intro q m cands c hkeep hmem
    obtain ⟨c', _, hkeep', heq⟩ := mem_search_ok hmem
    rw [keep_of_buildResult_eq heq.symm] at hkeep
    simp [hkeep'] at hkeep
  · intro q n cands l c hl hkeep hmem
    obtain ⟨c', _, hkeep', heq⟩ := mem_agentSearch_ok hl hmem
    rw [agentKeep_of_buildResult_eq heq.symm] at hkeep
    simp [hkeep'] at hkeep

/-- Claim C2 (amended), instantiated: a passing candidate is kept by the
knowledge service, and failing candidates are excluded by both
variants, on concrete runs. -/
theorem C2_amended_inclusion_filter_witness :
    (buildResult "return" returnsCand ∈
        searchKnowledgeBase "return" 2 (.ok [returnsCand, shippingCand]) ↔
      keepCandidate "return" returnsCand = true) ∧
    buildResult "return" shippingCand ∉
      searchKnowledgeBase "return" 2 (.ok [returnsCand, shippingCand]) ∧
    agentBuildResult "return" shippingCand ∉
      [agentBuildResult "return" returnsCand] :=
  ⟨C2_amended_inclusion_filter.1 "return" 2 [returnsCand, shippingCand]
      returnsCand (by decide) (by decide),
   C2_amended_inclusion_filter.2.1 "return" 2 [returnsCand, shippingCand]
      shippingCand (by decide),
   C2_amended_inclusion_filter.2.2 "return" 5 [returnsCand, shippingCand]
      [agentBuildResult "return" returnsCand] shippingCand (by decide) (by decide)⟩

/-- Claim C7, counterexample: the claim quantifies over the corpus, but
the scoring loop only sees the candidates surfaced by the vector index.
With a corpus containing the returns document (whose keywords intersect
the query tokens) and an index whose nearest neighbour for the query is
the shipping document, the search returns no result at all, in
particular none with positive relevance_score. -/
theorem C7_counterexample :
    (∃ d ∈ sampleState.knowledge_base, ∃ kw ∈ d.keywords,
      kw ∈ queryWords "return") ∧
    (searchKnowledgeBaseST shippingFirstIndex sampleState "return" 1).1 = [] :=
  ⟨by decide, by decide⟩

/-- Claim C7, amended: if the candidate list returned by the vector
index contains a document whose recovered keyword list intersects the
query's lower-cased whitespace tokens, then search_knowledge_base (with
max_results ≥ 1) returns at least one result with positive
relevance_score. -/
theorem C7_amended_candidate_hit (query : String) (max_results : ℕ)
    (cands : List Candidate) (c : Candidate)
    (hm : 1 ≤ max_results) (hc : c ∈ cands)
    (hit : ∃ w ∈ queryWords query, w ∈ docKeywords c) :
    ∃ r ∈ searchKnowledgeBase query max_results (.ok cands),
      0 < r.relevance_score := by
  obtain ⟨w, hw, hkw⟩ := hit
  have hpos : 0 < keywordMatches query c := keywordMatches_pos hw hkw
  have hposT : 0 < totalMatches query c :=
    Nat.lt_of_lt_of_le hpos (Nat.le_add_right _ _)
  have hkeep : keepCandidate query c = true := by
    unfold keepCandidate
    rw [Bool.or_eq_true]
    exact Or.inl (decide_eq_true hposT)
  have hmem : buildResult query c ∈
      ((cands.filter (keepCandidate query)).map (buildResult query)).mergeSort resLe :=
    (List.mergeSort_perm _ resLe).mem_iff.mpr
      (List.mem_map.mpr ⟨c, List.mem_filter.mpr ⟨hc, hkeep⟩, rfl⟩)
  have hsort := List.sorted_mergeSort resLe_trans resLe_total
    ((cands.filter (keepCandidate query)).map (buildResult query))
  show ∃ r ∈ (((cands.filter (keepCandidate query)).map
      (buildResult query)).mergeSort resLe).take max_results,
    0 < r.relevance_score
  cases hS : ((cands.filter (keepCandidate query)).map
      (buildResult query)).mergeSort resLe with
  | nil =>
    rw [hS] at hmem
    exact absurd hmem (List.not_mem_nil _)
  | cons a tl =>
    rw [hS] at hmem hsort
    have hrel : 0 < a.relevance_score := by
      rcases List.mem_cons.mp hmem with h | h
      · rw [← h]
        exact hposT
      · have hle := (resLe_iff a _).mp ((List.pairwise_cons.mp hsort).1 _ h)
        have hb : (buildResult query c).relevance_score = totalMatches query c := rfl
        rcases hle with hlt | ⟨heq, _⟩ <;> omega
    obtain ⟨k, rfl⟩ : ∃ k, max_results = k + 1 := ⟨max_results - 1, by omega⟩
    refine ⟨a, ?_, hrel⟩
    rw [List.take_succ_cons]
    exact List.mem_cons_self _ _

/-- Claim C7 (amended), instantiated: with the matching returns document
among the candidates, the search yields a positively scored result. -/
theorem C7_amended_candidate_hit_witness :
    ∃ r ∈ searchKnowledgeBase "return" 1 (.ok [returnsCand]),
      0 < r.relevance_score :=
  C7_amended_candidate_hit "return" 1 [returnsCand] returnsCand
    (by decide) (by decide) (by decide)

end KB
